import Mathlib

/-!
# Verification of the Shopify product scraper (`shopify_scraper.py`)

A shallow embedding of the script's two components and its `main` glue:

* the **Fetcher** `scrape_shopify_products`: a `while True` pagination loop over the
  store's `/products.json?limit=250&page=<n>` endpoint, modelled as a function
  consuming the finite trace of HTTP responses the server gives to successive
  requests;
* the **Projector** `extract_product_info`: a pure function from an untyped
  JSON record (a Python `dict` produced by `json.loads`) to the reduced product
  record, modelled over an inductive type of JSON values, returning `Option`
  (`none` models a raised Python exception, e.g. `.get` on a non-dict or
  `.split` on a non-string).

Python-specific behaviours (dict `.get` with default, truthiness, `str.split`
with a non-empty separator = `String.splitOn`, iteration over lists/strings/dicts)
are modelled explicitly and faithfully to CPython semantics.
-/

/-- JSON-like values, as produced by Python's `json.loads`. -/
inductive JVal where
  | null
  | bool (b : Bool)
  | num (n : Int)
  | str (s : String)
  | arr (elems : List JVal)
  | obj (fields : List (String × JVal))
deriving Repr

/-- First-match association-list lookup: Python dict indexing (a real Python
dict has unique keys; the first binding wins here, which agrees on such maps). -/
def lookupField : List (String × JVal) → String → Option JVal
  | [], _ => none
  | (k, v) :: rest, key => if k = key then some v else lookupField rest key

/-- Python `d.get(key, default)` on a dict's bindings: the stored value if the
key is present (even if that value is `None`), otherwise the default. -/
def dictGetD (kvs : List (String × JVal)) (key : String) (default : JVal) : JVal :=
  (lookupField kvs key).getD default

/-- Python `d.get(key)` (default `None`). -/
def dictGet (kvs : List (String × JVal)) (key : String) : JVal :=
  dictGetD kvs key .null

/-- Python truthiness of a JSON value: `None`, `False`, `0`, `""`, `[]`, `{}`
are falsy, everything else truthy. -/
def truthy : JVal → Bool
  | .null => false
  | .bool b => b
  | .num n => n ≠ 0
  | .str s => !s.data.isEmpty
  | .arr xs => !xs.isEmpty
  | .obj kvs => !kvs.isEmpty

/-- Left-to-right scan implementing Python `s.split(', ')`: cut whenever the
next two characters are `','` then `' '`; `cur` holds the characters of the
piece being built, in reverse. -/
def pySplitCommaSpaceAux : List Char → List Char → List String
  | [], cur => [String.mk cur.reverse]
  | ',' :: ' ' :: rest, cur => String.mk cur.reverse :: pySplitCommaSpaceAux rest []
  | c :: rest, cur => pySplitCommaSpaceAux rest (c :: cur)

/-- Python `s.split(', ')`: the maximal left-to-right decomposition of `s` at
non-overlapping occurrences of the two-character separator `", "`. -/
def pySplitCommaSpace (s : String) : List String := pySplitCommaSpaceAux s.data []

/-- Python iteration `for x in v`: lists yield their elements, strings their
characters (as 1-character strings), dicts their keys; other values raise
`TypeError` (`none`). -/
def pyIter : JVal → Option (List JVal)
  | .arr xs => some xs
  | .str s => some (s.data.map (fun c => .str (String.singleton c)))
  | .obj kvs => some (kvs.map (fun kv => .str kv.1))
  | _ => none

/-- Effectful map over a list in the exception (`Option`) monad, written by
structural recursion: models a Python list comprehension whose body may raise. -/
def mapOpt (f : JVal → Option JVal) : List JVal → Option (List JVal)
  | [] => some []
  | x :: xs => do
    let y ← f x
    let ys ← mapOpt f xs
    some (y :: ys)

/-- The body of the variants list comprehension in `extract_product_info`:
`v.get(...)` for the nine reduced fields; raises (`none`) if `v` is not a dict. -/
def extract_variant (v : JVal) : Option JVal :=
  match v with
  | .obj kvs => some (.obj [
      ("id", dictGet kvs "id"),
      ("title", dictGet kvs "title"),
      ("price", dictGet kvs "price"),
      ("compare_at_price", dictGet kvs "compare_at_price"),
      ("sku", dictGet kvs "sku"),
      ("available", dictGet kvs "available"),
      ("inventory_quantity", dictGet kvs "inventory_quantity"),
      ("weight", dictGet kvs "weight"),
      ("weight_unit", dictGet kvs "weight_unit")])
  | _ => none

/-- The tags expression of `extract_product_info`:
`product.get('tags', '').split(', ') if product.get('tags') else []`.
If the stored tags value is truthy it must be a string (else `.split` raises). -/
def splitTags (kvs : List (String × JVal)) : Option JVal :=
  if truthy (dictGet kvs "tags") then
    match dictGetD kvs "tags" (.str "") with
    | .str s => some (.arr ((pySplitCommaSpace s).map .str))
    | _ => none
  else some (.arr [])

/-- The body of the images list comprehension: `img.get('src')`. -/
def extract_image_src (img : JVal) : Option JVal :=
  match img with
  | .obj kvs => some (dictGet kvs "src")
  | _ => none

/-- The Projector `extract_product_info(product)`. `none` models a raised
exception (the input is not a dict, a truthy `tags` is not a string, `variants`
or `images` is not iterable, or an iterated element is not a dict). -/
def extract_product_info (product : JVal) : Option JVal :=
  match product with
  | .obj kvs => do
    let variants ← pyIter (dictGetD kvs "variants" (.arr []))
    let images ← pyIter (dictGetD kvs "images" (.arr []))
    let tags ← splitTags kvs
    let pvariants ← mapOpt extract_variant variants
    let srcs ← mapOpt extract_image_src images
    some (.obj [
      ("id", dictGet kvs "id"),
      ("title", dictGet kvs "title"),
      ("handle", dictGet kvs "handle"),
      ("vendor", dictGet kvs "vendor"),
      ("product_type", dictGet kvs "product_type"),
      ("tags", tags),
      ("description", dictGetD kvs "body_html" (.str "")),
      ("created_at", dictGet kvs "created_at"),
      ("updated_at", dictGet kvs "updated_at"),
      ("published_at", dictGet kvs "published_at"),
      ("variants", .arr pvariants),
      ("images", .arr srcs),
      ("options", dictGetD kvs "options" (.arr []))])
  | _ => none

/-- Field access on a projected (or any) JSON object. -/
def getField (j : JVal) (key : String) : Option JVal :=
  match j with
  | .obj kvs => lookupField kvs key
  | _ => none

/-- The key sequence of a JSON object. -/
def objKeys : JVal → Option (List String)
  | .obj kvs => some (kvs.map Prod.fst)
  | _ => none

/-- A field of the Projector's output: project, then read the given key. -/
def projField (p : JVal) (key : String) : Option JVal :=
  (extract_product_info p).bind (fun r => getField r key)

/-- A JSON value that is a dict. -/
def isObjB : JVal → Bool
  | .obj _ => true
  | _ => false

/-- A JSON value that is a list all of whose elements are dicts. -/
def isArrOfObjs : JVal → Bool
  | .arr xs => xs.all isObjB
  | _ => false

/-- A raw product record shaped as the endpoint's data model requires: a dict
whose `tags` field, when present and truthy, is a string, and whose `variants`
and `images` fields, when present, are lists of dicts. Any field may be absent. -/
def WFRaw (p : JVal) : Bool :=
  match p with
  | .obj kvs =>
    (match lookupField kvs "tags" with
     | some v => !truthy v || (match v with | .str _ => true | _ => false)
     | none => true) &&
    (match lookupField kvs "variants" with
     | some v => isArrOfObjs v
     | none => true) &&
    (match lookupField kvs "images" with
     | some v => isArrOfObjs v
     | none => true)
  | _ => false

/-- One HTTP exchange of the fetch loop, as the loop body observes it:
a 200 response whose JSON body yields the list `products`
(`data.get('products', [])`), an `HTTPError` with a status code, a network-level
`URLError`, or a body that fails JSON decoding. -/
inductive Response where
  | ok (products : List JVal)
  | http (code : Nat)
  | urlErr
  | badJson
deriving Repr

/-- The Shopify page-size maximum, `limit = 250` in the source. -/
def pageLimit : Nat := 250

/-- The `while True` loop of `scrape_shopify_products`, consuming the trace of
responses to its successive requests. State: current `page` counter and the
`all_products` accumulator; for observability the list of page numbers
requested so far (`reqs`) and of sleep durations performed so far (`sleeps`,
seconds) are threaded through. Returns `none` if the trace is exhausted before
the loop terminates, otherwise `some` of the final accumulator, request log and
sleep log.

* 200 with zero products: `break`.
* 200 with a partial page (< 250): extend, `break`.
* 200 with a full page: extend, `page += 1`, `time.sleep(delay)`, continue.
* HTTPError 404: report, `break`.
* HTTPError 429: `time.sleep(10)`, `continue` (same page, nothing accumulated).
* other HTTPError, URLError, JSONDecodeError: report, `break`. -/
def scrape_loop (delay : ℚ) :
    List Response → Nat → List JVal → List Nat → List ℚ →
    Option (List JVal × List Nat × List ℚ)
  | [], _, _, _, _ => none
  | r :: rest, page, acc, reqs, sleeps =>
    match r with
    | .ok products =>
      if products.isEmpty then some (acc, reqs ++ [page], sleeps)
      else if products.length < pageLimit then
        some (acc ++ products, reqs ++ [page], sleeps)
      else
        scrape_loop delay rest (page + 1) (acc ++ products)
          (reqs ++ [page]) (sleeps ++ [delay])
    | .http code =>
      if code = 404 then some (acc, reqs ++ [page], sleeps)
      else if code = 429 then
        scrape_loop delay rest page acc (reqs ++ [page]) (sleeps ++ [10])
      else some (acc, reqs ++ [page], sleeps)
    | .urlErr => some (acc, reqs ++ [page], sleeps)
    | .badJson => some (acc, reqs ++ [page], sleeps)

/-- The Fetcher `scrape_shopify_products(store_url, delay)`: run the fetch loop from page 1
with an empty accumulator against the given response trace. -/
def scrape_shopify_products (delay : ℚ) (resps : List Response) :
    Option (List JVal × List Nat × List ℚ) :=
  scrape_loop delay resps 1 [] [] []

/-- A response on which the fetch loop's `except` handlers `break`:
every `HTTPError` other than 429 (including 404), `URLError` (network-level
failure), and `JSONDecodeError` (malformed non-JSON body). -/
def isTerminalError : Response → Bool
  | .http code => code ≠ 429
  | .urlErr => true
  | .badJson => true
  | .ok _ => false

/-- Exit status of the process, modelling `main()`. `sys.exit(1)` if fewer than two
`argv` entries (no store URL); scrape with the default `delay=1.0`; `sys.exit(1)`
if nothing was accumulated; otherwise project every product and fall off the end
of the script (exit status 0). An exception raised during projection is uncaught
and CPython then exits with status 1. `none` when the fetch trace is exhausted
before the loop terminates (the run never reaches an exit). -/
def main_exit (argv : List String) (resps : List Response) : Option Nat :=
  if argv.length < 2 then some 1
  else
    match scrape_shopify_products 1 resps with
    | none => none
    | some (products, _, _) =>
      if products.isEmpty then some 1
      else
        match mapOpt extract_product_info products with
        | some _ => some 0
        | none => some 1

/-! ## Fetch-loop lemmas -/

/-- A 429 response makes the loop sleep 10 seconds and re-request the same
page: the `page` counter and accumulator are unchanged. -/
lemma scrape_loop_429 (delay : ℚ) (rest : List Response) (page : Nat)
    (acc : List JVal) (reqs : List Nat) (sleeps : List ℚ) :
    scrape_loop delay (Response.http 429 :: rest) page acc reqs sleeps =
      scrape_loop delay rest page acc (reqs ++ [page]) (sleeps ++ [10]) := by
  simp [scrape_loop]

/-- A terminal page (fewer than 250 products, possibly zero) ends the loop,
returning the accumulator extended by that page. -/
lemma scrape_loop_last (delay : ℚ) (ps : List JVal) (hps : ps.length < pageLimit)
    (rest : List Response) (page : Nat) (acc : List JVal) (reqs : List Nat)
    (sleeps : List ℚ) :
    scrape_loop delay (Response.ok ps :: rest) page acc reqs sleeps =
      some (acc ++ ps, reqs ++ [page], sleeps) := by
  cases ps with
  | nil => simp [scrape_loop]
  | cons x xs =>
    have hps' : xs.length + 1 < pageLimit := by simpa using hps
    simp [scrape_loop, hps]
    intro h
    exfalso
    omega

/-- A run of full pages is consumed page by page: each one is appended to the
accumulator, the page counter advances, and one `delay` sleep is performed. -/
lemma scrape_loop_full_pages (delay : ℚ) (pages : List (List JVal))
    (hfull : ∀ x ∈ pages, x.length = pageLimit) (rest : List Response)
    (page : Nat) (acc : List JVal) (reqs : List Nat) (sleeps : List ℚ) :
    scrape_loop delay (pages.map Response.ok ++ rest) page acc reqs sleeps =
      scrape_loop delay rest (page + pages.length) (acc ++ pages.flatten)
        (reqs ++ List.range' page pages.length)
        (sleeps ++ List.replicate pages.length delay) := by
  induction pages generalizing page acc reqs sleeps with
  | nil => simp
  | cons x xs ih =>
    have hx : x.length = pageLimit := hfull x (by simp)
    have hxs : ∀ y ∈ xs, y.length = pageLimit := fun y hy => hfull y (by simp [hy])
    have hne : ¬ x.isEmpty := by
      cases x with
      | nil => simp [pageLimit] at hx
      | cons a l => simp
    have hnotlt : ¬ x.length < pageLimit := by omega
    simp only [List.map_cons, List.cons_append, scrape_loop, hne, hnotlt,
      if_false, Bool.false_eq_true, ite_false, List.append_eq]
    rw [ih hxs]
    have hpage : page + 1 + xs.length = page + (xs.length + 1) := by omega
    simp only [List.append_assoc, List.singleton_append, List.flatten_cons,
      List.length_cons, List.range'_succ, List.replicate_succ, hpage]

/-- Any terminal error response ends the loop at once, returning the
accumulator as is. -/
lemma scrape_loop_terminal (delay : ℚ) (e : Response) (he : isTerminalError e = true)
    (rest : List Response) (page : Nat) (acc : List JVal) (reqs : List Nat)
    (sleeps : List ℚ) :
    scrape_loop delay (e :: rest) page acc reqs sleeps =
      some (acc, reqs ++ [page], sleeps) := by
  cases e with
  | ok ps => simp [isTerminalError] at he
  | http code =>
    have hcode : code ≠ 429 := by simpa [isTerminalError] using he
    by_cases h404 : code = 404
    · simp [scrape_loop, h404]
    · simp [scrape_loop, h404, hcode]
  | urlErr => simp [scrape_loop]
  | badJson => simp [scrape_loop]

/-- Consecutive 429 responses, n of them, are absorbed one by one: the same page is
re-requested `n` times with a 10-second sleep each time. -/
lemma scrape_loop_replicate_429 (delay : ℚ) (n : Nat) (rest : List Response)
    (page : Nat) (acc : List JVal) (reqs : List Nat) (sleeps : List ℚ) :
    scrape_loop delay (List.replicate n (Response.http 429) ++ rest) page acc reqs sleeps =
      scrape_loop delay rest page acc (reqs ++ List.replicate n page)
        (sleeps ++ List.replicate n 10) := by
  induction n generalizing reqs sleeps with
  | zero => simp
  | succ m ih =>
    rw [List.replicate_succ, List.cons_append, scrape_loop_429, ih]
    simp [List.replicate_succ, List.append_assoc]

/-! ## Projector lemmas -/

/-- Successful projection, destructured: the five effectful steps of
`extract_product_info` each succeed and the result is the thirteen-field
record built from them. -/
lemma extract_eq_some_iff (kvs : List (String × JVal)) (r : JVal) :
    extract_product_info (.obj kvs) = some r ↔
      ∃ variants images tags pvariants srcs,
        pyIter (dictGetD kvs "variants" (.arr [])) = some variants ∧
        pyIter (dictGetD kvs "images" (.arr [])) = some images ∧
        splitTags kvs = some tags ∧
        mapOpt extract_variant variants = some pvariants ∧
        mapOpt extract_image_src images = some srcs ∧
        r = .obj [
          ("id", dictGet kvs "id"),
          ("title", dictGet kvs "title"),
          ("handle", dictGet kvs "handle"),
          ("vendor", dictGet kvs "vendor"),
          ("product_type", dictGet kvs "product_type"),
          ("tags", tags),
          ("description", dictGetD kvs "body_html" (.str "")),
          ("created_at", dictGet kvs "created_at"),
          ("updated_at", dictGet kvs "updated_at"),
          ("published_at", dictGet kvs "published_at"),
          ("variants", .arr pvariants),
          ("images", .arr srcs),
          ("options", dictGetD kvs "options" (.arr []))] := by
  constructor
  · intro h
    simp only [extract_product_info, bind, Option.bind_eq_some, Option.some.injEq] at h
    obtain ⟨v, hv, i, hi, t, ht, pv, hpv, s, hs, hr⟩ := h
    exact ⟨v, i, t, pv, s, hv, hi, ht, hpv, hs, hr.symm⟩
  · rintro ⟨v, i, t, pv, s, hv, hi, ht, hpv, hs, rfl⟩
    simp [extract_product_info, bind, hv, hi, ht, hpv, hs]

lemma mapOpt_isSome (f : JVal → Option JVal) :
    ∀ xs : List JVal, (∀ x ∈ xs, (f x).isSome = true) → (mapOpt f xs).isSome = true := by
  intro xs
  induction xs with
  | nil => simp [mapOpt]
  | cons x l ih =>
    intro h
    have hx : (f x).isSome := h x (by simp)
    have hl : (mapOpt f l).isSome := ih (fun y hy => h y (by simp [hy]))
    obtain ⟨y, hy⟩ := Option.isSome_iff_exists.mp hx
    obtain ⟨ys, hys⟩ := Option.isSome_iff_exists.mp hl
    simp [mapOpt, bind, hy, hys]

lemma mapOpt_eq_some_map (f : JVal → Option JVal) :
    ∀ (xs ys : List JVal), mapOpt f xs = some ys →
      ys = xs.map (fun x => (f x).getD JVal.null) := by
  intro xs
  induction xs with
  | nil =>
    intro ys h
    simp [mapOpt] at h
    subst h
    simp
  | cons x l ih =>
    intro ys h
    simp only [mapOpt, bind, Option.bind_eq_some, Option.some.injEq] at h
    obtain ⟨y, hy, ys', hys', hr⟩ := h
    simp [← hr, hy, ih ys' hys']

lemma mapOpt_mem (f : JVal → Option JVal) :
    ∀ (xs ys : List JVal), mapOpt f xs = some ys →
      ∀ y ∈ ys, ∃ x ∈ xs, f x = some y := by
  intro xs
  induction xs with
  | nil =>
    intro ys h
    simp [mapOpt] at h
    subst h
    simp
  | cons x l ih =>
    intro ys h
    simp only [mapOpt, bind, Option.bind_eq_some, Option.some.injEq] at h
    obtain ⟨y, hy, ys', hys', hr⟩ := h
    intro z hz
    rw [← hr] at hz
    rcases List.mem_cons.mp hz with h1 | h2
    · exact ⟨x, by simp, h1 ▸ hy⟩
    · obtain ⟨w, hw, hfw⟩ := ih ys' hys' z h2
      exact ⟨w, by simp [hw], hfw⟩

/-- C2 counterexample: the tag pieces are not trimmed. On the tags string
`"a,  b"` (two spaces after the comma) the code's `split(', ')` yields
`["a", " b"]`, whose second element begins with a space character, so the
projected tags are not a sequence of trimmed strings. -/
theorem projector_tags_untrimmed_cx :
    projField (.obj [("tags", .str "a,  b")]) "tags" =
      some (.arr [.str "a", .str " b"])
    ∧ " b".data.head? = some ' ' ∧ " b" ≠ "b" := by
  refine ⟨rfl, rfl, by decide⟩

/-- C2 amended: the Projector's tags field is exactly `splitTags`: a truthy
(non-empty string) tags field is split on `", "` into the split pieces
verbatim — the pieces are not additionally trimmed — and an absent or empty
tags field projects to the empty sequence; `"a, b, c"` gives `["a","b","c"]`
and `"solo"` gives `["solo"]`. -/
theorem projector_tags_split :
    (∀ (kvs : List (String × JVal)) (r : JVal),
      extract_product_info (.obj kvs) = some r → getField r "tags" = splitTags kvs)
    ∧ (∀ (kvs : List (String × JVal)) (s : String),
      lookupField kvs "tags" = some (.str s) → s ≠ "" →
      splitTags kvs = some (.arr ((pySplitCommaSpace s).map .str)))
    ∧ (∀ kvs : List (String × JVal),
      (lookupField kvs "tags" = none ∨ lookupField kvs "tags" = some (.str "")) →
      splitTags kvs = some (.arr []))
    ∧ (pySplitCommaSpace "a, b, c" = ["a", "b", "c"]
        ∧ pySplitCommaSpace "solo" = ["solo"]) := by
  refine ⟨?_, ?_, ?_, by decide, by decide⟩
  · intro kvs r h
    obtain ⟨v, i, t, pv, s, hv, hi, ht, hpv, hs, rfl⟩ := (extract_eq_some_iff kvs r).mp h
    simp [getField, lookupField, ht]
  · intro kvs s hlk hs
    have hemp : s.data.isEmpty = false := by
      cases s with
      | mk data =>
        cases data with
        | nil => exact absurd rfl hs
        | cons c cs => rfl
    simp [splitTags, dictGet, dictGetD, hlk, truthy, hemp]
  · intro kvs h
    rcases h with h | h <;> simp [splitTags, dictGet, dictGetD, h, truthy]

theorem projector_tags_split_witness :
    splitTags [("tags", JVal.str "a, b, c")] =
      some (.arr [.str "a", .str "b", .str "c"]) :=
  projector_tags_split.2.1 [("tags", JVal.str "a, b, c")] "a, b, c" rfl (by decide)

lemma extract_variant_isSome (v : JVal) (h : isObjB v = true) :
    (extract_variant v).isSome = true := by
  cases v <;> simp_all [isObjB, extract_variant]

lemma extract_image_src_isSome (v : JVal) (h : isObjB v = true) :
    (extract_image_src v).isSome = true := by
  cases v <;> simp_all [isObjB, extract_image_src]

lemma pyIter_of_wf_field (kvs : List (String × JVal)) (key : String)
    (h : (match lookupField kvs key with
          | some v => isArrOfObjs v
          | none => true) = true) :
    ∃ xs, pyIter (dictGetD kvs key (.arr [])) = some xs ∧ ∀ x ∈ xs, isObjB x = true := by
  cases hl : lookupField kvs key with
  | none => exact ⟨[], by simp [dictGetD, hl, pyIter], by simp⟩
  | some v =>
    rw [hl] at h
    cases v with
    | arr xs =>
      refine ⟨xs, by simp [dictGetD, hl, pyIter], ?_⟩
      intro x hx
      exact List.all_eq_true.mp (by simpa [isArrOfObjs] using h) x hx
    | null => simp [isArrOfObjs] at h
    | bool b => simp [isArrOfObjs] at h
    | num n => simp [isArrOfObjs] at h
    | str s => simp [isArrOfObjs] at h
    | obj o => simp [isArrOfObjs] at h

lemma splitTags_isSome_of_wf (kvs : List (String × JVal))
    (h : (match lookupField kvs "tags" with
          | some v => !truthy v || (match v with | .str _ => true | _ => false)
          | none => true) = true) :
    ∃ t, splitTags kvs = some t := by
  cases hl : lookupField kvs "tags" with
  | none => exact ⟨.arr [], by simp [splitTags, dictGet, dictGetD, hl, truthy]⟩
  | some v =>
    rw [hl] at h
    cases v with
    | str s =>
      cases htr : truthy (.str s) with
      | false => exact ⟨.arr [], by simp [splitTags, dictGet, dictGetD, hl, htr]⟩
      | true =>
        exact ⟨.arr ((pySplitCommaSpace s).map .str),
          by simp [splitTags, dictGet, dictGetD, hl, htr]⟩
    | null => exact ⟨.arr [], by simp [splitTags, dictGet, dictGetD, hl, truthy]⟩
    | bool b =>
      simp [truthy] at h
      exact ⟨.arr [], by simp [splitTags, dictGet, dictGetD, hl, truthy, h]⟩
    | num n =>
      simp [truthy] at h
      exact ⟨.arr [], by simp [splitTags, dictGet, dictGetD, hl, truthy, h]⟩
    | arr xs =>
      simp [truthy] at h
      exact ⟨.arr [], by simp [splitTags, dictGet, dictGetD, hl, truthy, h]⟩
    | obj o =>
      simp [truthy] at h
      exact ⟨.arr [], by simp [splitTags, dictGet, dictGetD, hl, truthy, h]⟩

/-- A well-formed raw product record projects successfully. -/
lemma extract_isSome_of_WF (p : JVal) (h : WFRaw p = true) :
    ∃ r, extract_product_info p = some r := by
  cases p with
  | obj kvs =>
    simp only [WFRaw, Bool.and_eq_true] at h
    obtain ⟨⟨htags, hvars⟩, himgs⟩ := h
    obtain ⟨vs, hvs, hvso⟩ := pyIter_of_wf_field kvs "variants" hvars
    obtain ⟨is, his, hiso⟩ := pyIter_of_wf_field kvs "images" himgs
    obtain ⟨t, ht⟩ := splitTags_isSome_of_wf kvs htags
    obtain ⟨pv, hpv⟩ := Option.isSome_iff_exists.mp
      (mapOpt_isSome extract_variant vs (fun x hx => extract_variant_isSome x (hvso x hx)))
    obtain ⟨srcs, hsrcs⟩ := Option.isSome_iff_exists.mp
      (mapOpt_isSome extract_image_src is (fun x hx => extract_image_src_isSome x (hiso x hx)))
    exact ⟨_, (extract_eq_some_iff kvs _).mpr ⟨vs, is, t, pv, srcs, hvs, his, ht, hpv, hsrcs, rfl⟩⟩
  | null => simp [WFRaw] at h
  | bool b => simp [WFRaw] at h
  | num n => simp [WFRaw] at h
  | str s => simp [WFRaw] at h
  | arr xs => simp [WFRaw] at h

/-- C5: the Projector is total on records shaped as the data model requires:
any dict, with any subset of fields absent, projects successfully; an entirely
empty record maps every field to its default (null for the scalars, empty
sequence for tags/variants/images/options, empty string for description), and
a variant record with every optional subfield absent (e.g. no `sku`) projects
each of the nine reduced fields to null without raising. -/
theorem projector_total :
    (∀ p : JVal, WFRaw p = true → (extract_product_info p).isSome = true)
    ∧ extract_product_info (.obj []) = some (.obj [
        ("id", .null), ("title", .null), ("handle", .null), ("vendor", .null),
        ("product_type", .null), ("tags", .arr []), ("description", .str ""),
        ("created_at", .null), ("updated_at", .null), ("published_at", .null),
        ("variants", .arr []), ("images", .arr []), ("options", .arr [])])
    ∧ extract_variant (.obj []) = some (.obj [
        ("id", .null), ("title", .null), ("price", .null),
        ("compare_at_price", .null), ("sku", .null), ("available", .null),
        ("inventory_quantity", .null), ("weight", .null), ("weight_unit", .null)]) := by
  refine ⟨?_, rfl, rfl⟩
  intro p h
  obtain ⟨r, hr⟩ := extract_isSome_of_WF p h
  simp [hr]

theorem projector_total_witness :
    (extract_product_info (.obj [("variants", .arr [.obj [("id", .num 1)]])])).isSome
      = true :=
  projector_total.1 (.obj [("variants", .arr [.obj [("id", .num 1)]])]) rfl

/-- C6 counterexample: on a record with no `body_html`, projection succeeds
and the projected value of `body_html` is the empty string — not None/null —
and it is stored under the key `description`; no `body_html` key exists in the
output at all. -/
theorem projector_body_html_cx :
    projField (.obj []) "description" = some (.str "")
    ∧ projField (.obj []) "body_html" = none
    ∧ (extract_product_info (.obj [])).isSome = true
    ∧ JVal.str "" ≠ JVal.null := by
  exact ⟨rfl, rfl, rfl, by simp⟩

/-- C6 amended: the scalar fields id, title, handle, vendor, product_type,
created_at, updated_at, published_at pass through unchanged (absent → null);
body_html's value also passes through unchanged when present, but under the
output key `description`, and an absent body_html projects to the empty
string, not null; the output has no `body_html` key. -/
theorem projector_scalars (kvs : List (String × JVal)) (r : JVal)
    (h : extract_product_info (.obj kvs) = some r) :
    (∀ key ∈ (["id", "title", "handle", "vendor", "product_type",
        "created_at", "updated_at", "published_at"] : List String),
      getField r key = some (dictGet kvs key))
    ∧ getField r "description" = some (dictGetD kvs "body_html" (.str ""))
    ∧ getField r "body_html" = none := by
  obtain ⟨v, i, t, pv, s, hv, hi, ht, hpv, hs, rfl⟩ := (extract_eq_some_iff kvs r).mp h
  refine ⟨?_, by simp [getField, lookupField], by simp [getField, lookupField]⟩
  intro key hkey
  fin_cases hkey <;> simp [getField, lookupField]

theorem projector_scalars_witness :
    getField (JVal.obj [("id", JVal.null), ("title", JVal.str "x"),
      ("handle", JVal.null), ("vendor", JVal.null), ("product_type", JVal.null),
      ("tags", JVal.arr []), ("description", JVal.str ""),
      ("created_at", JVal.null), ("updated_at", JVal.null),
      ("published_at", JVal.null), ("variants", JVal.arr []),
      ("images", JVal.arr []), ("options", JVal.arr [])]) "description"
      = some (JVal.str "") :=
  (projector_scalars [("title", JVal.str "x")] (JVal.obj [("id", JVal.null),
    ("title", JVal.str "x"), ("handle", JVal.null), ("vendor", JVal.null),
    ("product_type", JVal.null), ("tags", JVal.arr []),
    ("description", JVal.str ""), ("created_at", JVal.null),
    ("updated_at", JVal.null), ("published_at", JVal.null),
    ("variants", JVal.arr []), ("images", JVal.arr []),
    ("options", JVal.arr [])]) rfl).2.1

/-- C7: the projected images field is exactly the sequence of each raw image's
`src` field (`img.get('src')`), in the same order and of the same length as
the raw images sequence. -/
theorem projector_images (kvs : List (String × JVal)) (r : JVal)
    (imgs : List JVal) (h : extract_product_info (.obj kvs) = some r)
    (himgs : dictGetD kvs "images" (.arr []) = .arr imgs) :
    getField r "images" =
      some (.arr (imgs.map (fun i => (extract_image_src i).getD JVal.null)))
    ∧ (imgs.map (fun i => (extract_image_src i).getD JVal.null)).length
        = imgs.length := by
  obtain ⟨v, i, t, pv, s, hv, hi, ht, hpv, hs, rfl⟩ := (extract_eq_some_iff kvs r).mp h
  rw [himgs] at hi
  simp only [pyIter, Option.some.injEq] at hi
  subst hi
  have hmap := mapOpt_eq_some_map extract_image_src _ s hs
  subst hmap
  exact ⟨by simp [getField, lookupField], by simp⟩

theorem projector_images_witness :
    getField (JVal.obj [("id", JVal.null), ("title", JVal.null),
      ("handle", JVal.null), ("vendor", JVal.null), ("product_type", JVal.null),
      ("tags", JVal.arr []), ("description", JVal.str ""),
      ("created_at", JVal.null), ("updated_at", JVal.null),
      ("published_at", JVal.null), ("variants", JVal.arr []),
      ("images", JVal.arr [JVal.str "u"]), ("options", JVal.arr [])]) "images"
      = some (JVal.arr [JVal.str "u"]) :=
  (projector_images [("images", JVal.arr [JVal.obj [("src", JVal.str "u")]])]
    (JVal.obj [("id", JVal.null), ("title", JVal.null), ("handle", JVal.null),
      ("vendor", JVal.null), ("product_type", JVal.null), ("tags", JVal.arr []),
      ("description", JVal.str ""), ("created_at", JVal.null),
      ("updated_at", JVal.null), ("published_at", JVal.null),
      ("variants", JVal.arr []), ("images", JVal.arr [JVal.str "u"]),
      ("options", JVal.arr [])])
    [JVal.obj [("src", JVal.str "u")]] rfl rfl).1

/-- C9: the Projector is deterministic — two applications of
`extract_product_info` to the same input yield identical outputs. It is a pure
function of its argument: the embedding has no other state it could read. -/
theorem projector_deterministic :
    ∀ p : JVal, extract_product_info p = extract_product_info p :=
  fun _ => rfl

lemma extract_variant_keys (v w : JVal) (h : extract_variant v = some w) :
    objKeys w = some ["id", "title", "price", "compare_at_price", "sku",
      "available", "inventory_quantity", "weight", "weight_unit"] := by
  cases v with
  | obj kvs =>
    simp only [extract_variant, Option.some.injEq] at h
    subst h
    rfl
  | null => simp [extract_variant] at h
  | bool b => simp [extract_variant] at h
  | num n => simp [extract_variant] at h
  | str s => simp [extract_variant] at h
  | arr xs => simp [extract_variant] at h

/-- C10: whenever the Projector produces an output, that output has exactly
the thirteen keys id, title, handle, vendor, product_type, tags, description,
created_at, updated_at, published_at, variants, images, options, in that
order (the key is `description`, not `body_html`); every projected variant has
exactly the nine keys id, title, price, compare_at_price, sku, available,
inventory_quantity, weight, weight_unit; a missing options field projects to
the empty list. -/
theorem projector_shape (kvs : List (String × JVal)) (r : JVal)
    (h : extract_product_info (.obj kvs) = some r) :
    objKeys r = some ["id", "title", "handle", "vendor", "product_type",
      "tags", "description", "created_at", "updated_at", "published_at",
      "variants", "images", "options"]
    ∧ (∃ vs, getField r "variants" = some (.arr vs) ∧
        ∀ v ∈ vs, objKeys v = some ["id", "title", "price", "compare_at_price",
          "sku", "available", "inventory_quantity", "weight", "weight_unit"])
    ∧ (lookupField kvs "options" = none → getField r "options" = some (.arr [])) := by
  obtain ⟨v, i, t, pv, s, hv, hi, ht, hpv, hs, rfl⟩ := (extract_eq_some_iff kvs r).mp h
  refine ⟨rfl, ⟨pv, by simp [getField, lookupField], ?_⟩, ?_⟩
  · intro w hw
    obtain ⟨x, hx, hfx⟩ := mapOpt_mem extract_variant v pv hpv w hw
    exact extract_variant_keys x w hfx
  · intro hopt
    simp [getField, lookupField, dictGetD, hopt]

theorem projector_shape_witness :
    objKeys (JVal.obj [("id", JVal.null), ("title", JVal.null),
      ("handle", JVal.null), ("vendor", JVal.null), ("product_type", JVal.null),
      ("tags", JVal.arr []), ("description", JVal.str ""),
      ("created_at", JVal.null), ("updated_at", JVal.null),
      ("published_at", JVal.null),
      ("variants", JVal.arr [JVal.obj [("id", JVal.null), ("title", JVal.null),
        ("price", JVal.str "9"), ("compare_at_price", JVal.null),
        ("sku", JVal.null), ("available", JVal.null),
        ("inventory_quantity", JVal.null), ("weight", JVal.null),
        ("weight_unit", JVal.null)]]),
      ("images", JVal.arr []), ("options", JVal.arr [])])
      = some ["id", "title", "handle", "vendor", "product_type", "tags",
        "description", "created_at", "updated_at", "published_at", "variants",
        "images", "options"] :=
  (projector_shape [("variants", JVal.arr [JVal.obj [("price", JVal.str "9")]])]
    (JVal.obj [("id", JVal.null), ("title", JVal.null), ("handle", JVal.null),
      ("vendor", JVal.null), ("product_type", JVal.null), ("tags", JVal.arr []),
      ("description", JVal.str ""), ("created_at", JVal.null),
      ("updated_at", JVal.null), ("published_at", JVal.null),
      ("variants", JVal.arr [JVal.obj [("id", JVal.null), ("title", JVal.null),
        ("price", JVal.str "9"), ("compare_at_price", JVal.null),
        ("sku", JVal.null), ("available", JVal.null),
        ("inventory_quantity", JVal.null), ("weight", JVal.null),
        ("weight_unit", JVal.null)]]),
      ("images", JVal.arr []), ("options", JVal.arr [])]) rfl).1

/-- C8: the process exits with status 1 when the store URL argument is missing
(fewer than two argv entries) or when zero products were scraped; when at least
one product was scraped (records shaped as the endpoint's data model requires)
it runs to completion and exits with status 0. -/
theorem main_exit_codes :
    (∀ (argv : List String) (resps : List Response), argv.length < 2 →
      main_exit argv resps = some 1)
    ∧ (∀ (argv : List String) (resps : List Response) (reqs : List Nat)
        (sleeps : List ℚ), 2 ≤ argv.length →
      scrape_shopify_products 1 resps = some ([], reqs, sleeps) →
      main_exit argv resps = some 1)
    ∧ (∀ (argv : List String) (resps : List Response) (products : List JVal)
        (reqs : List Nat) (sleeps : List ℚ), 2 ≤ argv.length →
      scrape_shopify_products 1 resps = some (products, reqs, sleeps) →
      products ≠ [] → (∀ p ∈ products, WFRaw p = true) →
      main_exit argv resps = some 0) := by
  refine ⟨?_, ?_, ?_⟩
  · intro argv resps h
    simp [main_exit, h]
  · intro argv resps reqs sleeps h hs
    have hlt : ¬ argv.length < 2 := by omega
    simp [main_exit, hlt, hs]
  · intro argv resps products reqs sleeps h hs hne hwf
    have hlt : ¬ argv.length < 2 := by omega
    have hsome : (mapOpt extract_product_info products).isSome = true :=
      mapOpt_isSome _ products (fun p hp => by
        obtain ⟨r, hr⟩ := extract_isSome_of_WF p (hwf p hp)
        simp [hr])
    obtain ⟨cleaned, hc⟩ := Option.isSome_iff_exists.mp hsome
    simp [main_exit, hlt, hs, hne, hc]

theorem main_exit_codes_witness :
    main_exit ["prog", "https://store.example"] [Response.ok [JVal.obj []]]
      = some 0 :=
  main_exit_codes.2.2 ["prog", "https://store.example"]
    [Response.ok [JVal.obj []]] [JVal.obj []] [1] [] (by norm_num) rfl
    (by simp) (by decide)

/-- C1: with N full pages of 250 products followed by a final page of k < 250
products (k = 0, the empty-page stop, included), the Fetcher returns exactly
the concatenation of the pages — 250*N + k records in the endpoint's original
relative order — having requested pages 1, 2, …, N+1, slept the configured
delay after each full page, and stopped there: those N+1 responses are the
whole trace it consumes. -/
theorem fetcher_pagination (delay : ℚ) (pages : List (List JVal))
    (last' : List JVal) (hfull : ∀ x ∈ pages, x.length = pageLimit)
    (hlast : last'.length < pageLimit) :
    scrape_shopify_products delay ((pages ++ [last']).map Response.ok) =
      some (pages.flatten ++ last', List.range' 1 (pages.length + 1),
        List.replicate pages.length delay)
    ∧ (pages.flatten ++ last').length = pageLimit * pages.length + last'.length := by
  constructor
  · rw [scrape_shopify_products, List.map_append, List.map_cons, List.map_nil,
      scrape_loop_full_pages delay pages hfull, scrape_loop_last delay last' hlast]
    rw [List.range'_concat]
    simp [Nat.add_comm]
  · have hsum : (pages.map List.length).sum = pageLimit * pages.length := by
      induction pages with
      | nil => simp
      | cons x xs ih =>
        have hx : x.length = pageLimit := hfull x (by simp)
        have hxs : ∀ y ∈ xs, y.length = pageLimit := fun y hy => hfull y (by simp [hy])
        simp [hx, ih hxs, Nat.mul_add, Nat.mul_succ]
        ring
    simp [List.length_flatten, hsum]

set_option maxRecDepth 4000 in
theorem fetcher_pagination_witness :
    scrape_shopify_products 1
        (([List.replicate 250 (JVal.num 7)] ++ [[JVal.num 8]]).map Response.ok) =
      some (List.replicate 250 (JVal.num 7) ++ [JVal.num 8], List.range' 1 2,
        List.replicate 1 (1 : ℚ)) :=
  (fetcher_pagination 1 [List.replicate 250 (JVal.num 7)] [JVal.num 8]
    (by simp [pageLimit]) (by simp [pageLimit])).1

/-- C3: on HTTP 429 the Fetcher sleeps 10 seconds and retries the same page —
the page counter and accumulator are untouched — with no retry cap: any number
n of consecutive 429s is absorbed, every retry re-requesting page 1 with a
10-second sleep each time. In particular a 429 followed by a 200 with data
makes exactly 2 requests, both for page 1, and succeeds with that data. -/
theorem fetcher_rate_limit :
    (∀ (delay : ℚ) (rest : List Response) (page : Nat) (acc : List JVal)
        (reqs : List Nat) (sleeps : List ℚ),
      scrape_loop delay (Response.http 429 :: rest) page acc reqs sleeps =
        scrape_loop delay rest page acc (reqs ++ [page]) (sleeps ++ [10]))
    ∧ (∀ (delay : ℚ) (ps : List JVal), ps ≠ [] → ps.length < pageLimit →
      scrape_shopify_products delay [Response.http 429, Response.ok ps] =
        some (ps, [1, 1], [10]))
    ∧ (∀ (n : Nat) (delay : ℚ) (ps : List JVal), ps ≠ [] → ps.length < pageLimit →
      scrape_shopify_products delay
          (List.replicate n (Response.http 429) ++ [Response.ok ps]) =
        some (ps, List.replicate (n + 1) 1, List.replicate n 10)) := by
  have habs : ∀ (n : Nat) (delay : ℚ) (ps : List JVal), ps.length < pageLimit →
      scrape_shopify_products delay
          (List.replicate n (Response.http 429) ++ [Response.ok ps]) =
        some (ps, List.replicate (n + 1) 1, List.replicate n 10) := by
    intro n delay ps hlen
    rw [scrape_shopify_products, scrape_loop_replicate_429,
      scrape_loop_last delay ps hlen]
    simp [List.replicate_succ, List.append_assoc]
    rw [← List.replicate_succ', ← List.replicate_succ]
  refine ⟨scrape_loop_429, ?_, ?_⟩
  · intro delay ps _ hlen
    have h1 := habs 1 delay ps hlen
    simpa using h1
  · intro n delay ps _ hlen
    exact habs n delay ps hlen

theorem fetcher_rate_limit_witness :
    scrape_shopify_products 1 [Response.http 429, Response.ok [JVal.num 3]] =
      some ([JVal.num 3], [1, 1], [10]) :=
  fetcher_rate_limit.2.1 1 [JVal.num 3] (by simp) (by simp [pageLimit])

/-- C4: every fetch-loop error other than 429 — 404, any other HTTP error
status, a network-level failure, a malformed non-JSON body — is caught and
ends the loop at once, and the Fetcher returns exactly what was accumulated
from the pages fetched before the error (possibly empty): after N full pages
followed by such an error it returns those N pages' products, nothing
discarded and nothing propagated. -/
theorem fetcher_terminal_errors :
    (∀ (delay : ℚ) (e : Response) (rest : List Response) (page : Nat)
        (acc : List JVal) (reqs : List Nat) (sleeps : List ℚ),
      isTerminalError e = true →
      scrape_loop delay (e :: rest) page acc reqs sleeps =
        some (acc, reqs ++ [page], sleeps))
    ∧ (∀ (delay : ℚ) (pages : List (List JVal)) (e : Response),
      (∀ x ∈ pages, x.length = pageLimit) → isTerminalError e = true →
      scrape_shopify_products delay (pages.map Response.ok ++ [e]) =
        some (pages.flatten, List.range' 1 (pages.length + 1),
          List.replicate pages.length delay)) := by
  constructor
  · intro delay e rest page acc reqs sleeps he
    exact scrape_loop_terminal delay e he rest page acc reqs sleeps
  · intro delay pages e hfull he
    rw [scrape_shopify_products, scrape_loop_full_pages delay pages hfull,
      scrape_loop_terminal delay e he]
    rw [List.range'_concat]
    simp [Nat.add_comm]

theorem fetcher_terminal_errors_witness :
    scrape_shopify_products 1 [Response.http 500] = some ([], [1], []) := by
  have h := fetcher_terminal_errors.2 1 [] (Response.http 500) (by simp) rfl
  simpa using h
